import Mathlib

/-!
Verification of the flashing monitor in popsicle's GTK front end
(`src/gtk/src/ui/state.rs`).

The definitions below are a shallow embedding of `watch_flashing_devices`
and the session-start code in `connect_next_button`:

* The 7-slot `previous` array of a `FlashTask` (`[usize; 7]`, line 280)
  becomes `SampleRing` with named slots `s0`..`s6`.
* Rust `usize` subtraction (`raw_value - prev_values[0]`, line 379) panics
  on underflow in debug builds; it is modelled as `usizeSub` returning
  `none` on underflow, and the option propagates through the per-task
  update (`taskPoll`) and the whole poll (`pollStep`).
* The `f64` fraction written to the progress bar (lines 363-369) is
  modelled as `Option ℚ`: division by a zero `image_length` yields NaN or
  an infinity in IEEE arithmetic, i.e. no rational value, modelled `none`.
  The exact rounded `f64` quotient is not needed by any property below;
  the rational quotient stands in for it.
* A writer-thread handle (`JoinHandle<Result<(), DiskError>>`) is modelled
  by the outcome its `join()` returns, `Except DiskError Unit`.
* GTK side effects (widget visibility, label text, sensitivity) are not
  state of the model; the strings written to labels are returned as data.
-/

namespace Popsicle

/-- Modelled from the spec: `popsicle::DiskError` is defined in the external
popsicle library, outside this repository's sources.  The spec describes it
only as a typed per-target failure reason (open failure, short write,
verification mismatch), so it is embedded as an enumeration of such
reasons; no property below depends on which constructors exist. -/
inductive DiskError where
  | openFailure
  | shortWrite
  | verificationMismatch
  deriving DecidableEq

deriving instance DecidableEq for Except

/-- The `previous` field of `FlashTask`: the `[usize; 7]` array created as
`[0; 7]` at session start (`state.rs` line 280).  Slot 0 holds the raw
progress value seen at the previous poll (the baseline); slots 1-6 hold
the six most recent per-poll deltas, slot 6 the newest. -/
structure SampleRing where
  s0 : Nat
  s1 : Nat
  s2 : Nat
  s3 : Nat
  s4 : Nat
  s5 : Nat
  s6 : Nat
  deriving DecidableEq

/-- Rust `usize` subtraction `a - b` as performed at `state.rs` line 379:
underflow is a panic in debug builds (and a wrap in release builds, which
the program never relies on), so the result is `none` when `b > a`. -/
def usizeSub (a b : Nat) : Option Nat :=
  if b ≤ a then some (a - b) else none

/-- Lines 374-380: shift slots 1-6 left by one, insert
`raw_value - prev_values[0]` into slot 6, then store `raw_value` into
slot 0.  All reads happen before the slot they read is overwritten, so the
sequential Rust assignments equal this simultaneous record update. -/
def ringUpdate (r : SampleRing) (raw : Nat) : Option SampleRing :=
  (usizeSub raw r.s0).map fun delta =>
    { s0 := raw, s1 := r.s2, s2 := r.s3, s3 := r.s4,
      s4 := r.s5, s5 := r.s6, s6 := delta }

/-- The six delta slots of the ring, oldest first (slots 1-6). -/
def deltas (r : SampleRing) : List Nat :=
  [r.s1, r.s2, r.s3, r.s4, r.s5, r.s6]

/-- Lines 382-383: `let sum: usize = prev_values.iter().skip(1).sum();`
followed by `let per_second = sum / 3;` — the sum ranges over all six
delta slots (everything after slot 0), then integer-divides by 3. -/
def smoothedRate (r : SampleRing) : Nat :=
  (r.s1 + r.s2 + r.s3 + r.s4 + r.s5 + r.s6) / 3

/-- Lines 384-388: the rate label, `MiB/s` when `per_second` exceeds one
mebibyte, otherwise `KiB/s`. -/
def rateLabel (perSecond : Nat) : String :=
  if perSecond > 1024 * 1024 then
    toString (perSecond / (1024 * 1024)) ++ " MiB/s"
  else
    toString (perSecond / 1024) ++ " KiB/s"

/-- `FlashTask` (`state.rs` lines 279-283): the shared `previous` array,
the `progress` atomic written by the writer thread's progress callback,
and the `finished` atomic stored to `1` when the writer returns. -/
structure FlashTask where
  previous : SampleRing
  progress : Nat
  finished : Nat
  deriving DecidableEq

/-- Lines 363-369: the fraction handed to `bar.set_fraction` — `1.0` when
`task.finished == 1`, otherwise `raw_value as f64 / image_length as f64`.
The code has no guard on `image_length == 0`: in that case the `f64`
division yields NaN (for `raw_value == 0`) or an infinity, neither of
which is a rational number, modelled here as `none`. -/
def taskFraction (imageLength : Nat) (t : FlashTask) : Option ℚ :=
  if t.finished = 1 then some 1
  else if imageLength = 0 then none
  else some ((t.progress : ℚ) / (imageLength : ℚ))

/-- What one iteration of the per-task loop displays: the progress-bar
fraction, the numeric `per_second` value, and the label text built from
it. -/
structure TaskView where
  fraction : Option ℚ
  rate : Nat
  label : String
  deriving DecidableEq

/-- One iteration of the loop at lines 362-389 for a single task: compute
the fraction from the raw progress value, update the sample ring, and
build the rate label from the updated ring.  `none` exactly when the delta
subtraction underflows. -/
def taskPoll (imageLength : Nat) (t : FlashTask) : Option (TaskView × FlashTask) :=
  let raw := t.progress
  let fraction := taskFraction imageLength t
  (ringUpdate t.previous raw).map fun r =>
    let perSecond := smoothedRate r
    (⟨fraction, perSecond, rateLabel perSecond⟩, { t with previous := r })

/-- The per-task loop, run over the tasks that are zipped with a progress
bar (`tasks.iter().zip(bars.borrow().iter())`, line 362). -/
def pollTasks (imageLength : Nat) : List FlashTask → Option (List (TaskView × FlashTask))
  | [] => some []
  | t :: ts =>
    match taskPoll imageLength t, pollTasks imageLength ts with
    | some r, some rs => some (r :: rs)
    | _, _ => none

/-- Lines 398-409: drain the writer handles, pairing each with the next
entry of the device list; a handle whose `join()` returned `Err` is
recorded as `(device, why)`.  When `device_iter.next()` returns `None`
(device list exhausted) the handle is dropped without being joined and
nothing is recorded. -/
def drainErrors : List (Except DiskError Unit) → List String → List (String × DiskError)
  | [], _ => []
  | _ :: _, [] => []
  | h :: hs, d :: ds =>
    match h with
    | .error why => (d, why) :: drainErrors hs ds
    | .ok _ => drainErrors hs ds

/-- Lines 411-418: the summary description text. -/
def summaryText (ntasks : Nat) (errored : List (String × DiskError)) : String :=
  if errored.isEmpty then
    toString ntasks ++ " devices successfully flashed"
  else
    toString (ntasks - errored.length) ++ " of " ++ toString ntasks
      ++ " devices successfully flashed"

/-- Whether a writer handle's outcome is a failure. -/
def isErr : Except DiskError Unit → Bool
  | .error _ => true
  | .ok _ => false

/-- The state read by one poll of the `gtk::timeout_add(500, ...)` closure:
the buffer state flag, the cached `image_length`, and the contents of the
`tasks`, `bars` (only its length matters to the control flow), `devices`
and `task_handles` collections. -/
structure PollInput where
  bufState : Nat
  imageLength : Nat
  tasks : List FlashTask
  bars : Nat
  devices : List String
  handles : List (Except DiskError Unit)
  deriving DecidableEq

/-- What one poll produces: the `Continue` flag returned to GTK, whether
the per-task section (past the `ntasks == 0` check) was reached, the
per-task views, the updated collections, the drained error list, and the
summary text when the completion branch ran. -/
structure PollOutput where
  cont : Bool
  loopEntered : Bool
  views : List TaskView
  tasks : List FlashTask
  devices : List String
  handles : List (Except DiskError Unit)
  errored : List (String × DiskError)
  summary : Option String
  deriving DecidableEq

/-- A poll that returns `Continue(true)` before reaching the per-task
section: every collection is left untouched and nothing is displayed. -/
def earlyReturn (inp : PollInput) : PollOutput :=
  { cont := true, loopEntered := false, views := [], tasks := inp.tasks,
    devices := inp.devices, handles := inp.handles, errored := [], summary := none }

/-- Lines 391-433: what happens after the per-task loop has produced its
results.  If every task zipped with a bar had `finished == 1`, the
completion branch runs: the handles are drained against the devices, the
summary is written, and `Continue(false)` is returned; otherwise the
collections are untouched and `Continue(true)` is returned. -/
def completeOrContinue (inp : PollInput) (results : List (TaskView × FlashTask)) :
    PollOutput :=
  let views := results.map Prod.fst
  let updated := results.map Prod.snd ++ inp.tasks.drop inp.bars
  if (inp.tasks.take inp.bars).all (fun t => t.finished = 1) then
    let errored := drainErrors inp.handles inp.devices
    { cont := false, loopEntered := true, views := views,
      tasks := updated, devices := inp.devices, handles := [],
      errored := errored,
      summary := some (summaryText inp.tasks.length errored) }
  else
    { cont := true, loopEntered := true, views := views,
      tasks := updated, devices := inp.devices,
      handles := inp.handles, errored := [], summary := none }

/-- Lines 353-433: the body reached when the buffer-state match falls
through — the `ntasks == 0` early return, the per-task loop over the
tasks zipped with the bars, and then `completeOrContinue`. -/
def pollBody (inp : PollInput) : Option PollOutput :=
  if inp.tasks.length = 0 then
    some (earlyReturn inp)
  else
    (pollTasks inp.imageLength (inp.tasks.take inp.bars)).map (completeOrContinue inp)

/-- Lines 328-351: the match on `state.buffer.state`.  `0b0000` (empty),
`0b0001` (loading) and `0b0100` (invalidated) return `Continue(true)`
immediately; `0b0010` (ready) updates the image label and `image_length`
and then FALLS THROUGH — the match arm has no `return` — exactly as
`0b1000` (flashing) does; any other value is `unreachable!()`. -/
def pollStep (inp : PollInput) : Option PollOutput :=
  if inp.bufState = 0 then some (earlyReturn inp)
  else if inp.bufState = 1 then some (earlyReturn inp)
  else if inp.bufState = 2 then pollBody inp
  else if inp.bufState = 4 then some (earlyReturn inp)
  else if inp.bufState = 8 then pollBody inp
  else none

/-- The per-session collections of the GTK state touched by session start
and drain: `tasks`, `task_handles`, and the progress-bar list (only its
length matters here). -/
structure SessionState where
  tasks : List FlashTask
  handles : List (Except DiskError Unit)
  bars : Nat
  deriving DecidableEq

/-- A freshly pushed task (`state.rs` lines 279-283): `previous = [0; 7]`,
`progress = 0`, `finished = 0`. -/
def freshTask : FlashTask :=
  { previous := ⟨0, 0, 0, 0, 0, 0, 0⟩, progress := 0, finished := 0 }

/-- `connect_next_button`, view 1 (lines 191-287): `bars` is cleared and
then one bar is pushed per disk, and for each disk one handle is pushed
onto `task_handles` and one fresh task onto `tasks`.  Neither `tasks` nor
`task_handles` is cleared first.  A spawned thread is modelled by the
outcome its `join()` will return, so the disks are given as the list of
those outcomes. -/
def sessionStart (st : SessionState) (outcomes : List (Except DiskError Unit)) : SessionState :=
  { tasks := st.tasks ++ outcomes.map (fun _ => freshTask),
    handles := st.handles ++ outcomes,
    bars := outcomes.length }

/-- Handle outcomes for the spec's three-target worked example: target A
succeeds, target B fails with a short write, target C succeeds. -/
def exampleHandles : List (Except DiskError Unit) :=
  [.ok (), .error .shortWrite, .ok ()]

/-- Device identifiers for the spec's three-target worked example. -/
def exampleDevices : List String :=
  ["A", "B", "C"]

/-! ### Helper lemmas -/

theorem pollTasks_length (imageLength : Nat) (ts : List FlashTask)
    (rs : List (TaskView × FlashTask)) (h : pollTasks imageLength ts = some rs) :
    rs.length = ts.length := by
  induction ts generalizing rs with
  | nil =>
    simp [pollTasks] at h
    simp [← h]
  | cons t ts ih =>
    unfold pollTasks at h
    cases hp : taskPoll imageLength t <;> rw [hp] at h
    · simp at h
    · cases hq : pollTasks imageLength ts <;> rw [hq] at h
      · simp at h
      · simp at h
        subst h
        simp [ih _ hq]

theorem drainErrors_eq_filterMap (hs : List (Except DiskError Unit)) :
    ∀ ds : List String, hs.length ≤ ds.length →
      drainErrors hs ds = (ds.zip hs).filterMap fun p =>
        match p.2 with
        | .error why => some (p.1, why)
        | .ok _ => none := by
  induction hs with
  | nil =>
    intro ds _
    simp [drainErrors]
  | cons hh hs ih =>
    intro ds hlen
    cases ds with
    | nil => simp at hlen
    | cons d ds =>
      simp only [List.length_cons, Nat.add_le_add_iff_right] at hlen
      cases hh with
      | error why => simp [drainErrors, List.filterMap_cons, ih ds hlen]
      | ok u => simp [drainErrors, List.filterMap_cons, ih ds hlen]

theorem drainErrors_length (hs : List (Except DiskError Unit)) :
    ∀ ds : List String, hs.length ≤ ds.length →
      (drainErrors hs ds).length = hs.countP isErr := by
  induction hs with
  | nil =>
    intro ds _
    simp [drainErrors]
  | cons hh hs ih =>
    intro ds hlen
    cases ds with
    | nil => simp at hlen
    | cons d ds =>
      simp only [List.length_cons, Nat.add_le_add_iff_right] at hlen
      cases hh with
      | error why => simp [drainErrors, List.countP_cons, isErr, ih ds hlen]
      | ok u => simp [drainErrors, List.countP_cons, isErr, ih ds hlen]

theorem drainErrors_eq_nil_iff (hs : List (Except DiskError Unit)) (ds : List String)
    (hlen : hs.length ≤ ds.length) :
    drainErrors hs ds = [] ↔ hs.countP isErr = 0 := by
  rw [← List.length_eq_zero, drainErrors_length hs ds hlen]

theorem drainErrors_take (hs : List (Except DiskError Unit)) :
    ∀ ds : List String, drainErrors hs ds = drainErrors (hs.take ds.length) ds := by
  induction hs with
  | nil =>
    intro ds
    simp
  | cons hh hs ih =>
    intro ds
    cases ds with
    | nil => simp [drainErrors]
    | cons d ds =>
      cases hh with
      | error why => simp [drainErrors, ih ds]
      | ok u => simp [drainErrors, ih ds]

/-! ### C1 — smoothed rate -/

/-- C1, counterexample: the claim says the displayed rate is the sum of the
3 most-recently-inserted deltas divided by 3.  After the update the three
newest deltas are slots 4-6 of the ring.  For a ring holding older deltas
`300, 300, 300` in slots 2-4 and a raw value of `0`, the update makes the
three newest deltas `0, 0, 0`, yet the displayed rate is `300`, because
`prev_values.iter().skip(1).sum() / 3` sums all six delta slots. -/
theorem rate_last_three_counterexample :
    taskPoll 0 ⟨⟨0, 0, 300, 300, 300, 0, 0⟩, 0, 0⟩ =
      some (⟨none, 300, "0 KiB/s"⟩, ⟨⟨0, 300, 300, 300, 0, 0, 0⟩, 0, 0⟩) ∧
    (300 : Nat) ≠ (0 + 0 + 0) / 3 := by
  constructor
  · decide
  · decide

/-- C1, amended: on every poll in which a task's sample ring is updated,
the displayed rate equals the sum of all six delta slots of the updated
ring divided by 3 (integer division); deltas older than the last three do
contribute to the value. -/
theorem rate_uses_all_six_deltas (imageLength : Nat) (t : FlashTask)
    (view : TaskView) (t' : FlashTask)
    (h : taskPoll imageLength t = some (view, t')) :
    view.rate = (t'.previous.s1 + t'.previous.s2 + t'.previous.s3 +
      t'.previous.s4 + t'.previous.s5 + t'.previous.s6) / 3 := by
  simp only [taskPoll] at h
  cases hr : ringUpdate t.previous t.progress <;> rw [hr] at h
  · simp at h
  · simp at h
    obtain ⟨hv, ht⟩ := h
    subst hv
    subst ht
    simp [smoothedRate]

/-- C1, witness: the amended theorem evaluated on a concrete task. -/
theorem rate_uses_all_six_deltas_witness :
    (⟨none, 9, "0 KiB/s"⟩ : TaskView).rate =
      ((⟨⟨8, 2, 3, 4, 5, 6, 8⟩, 8, 0⟩ : FlashTask).previous.s1 +
        (⟨⟨8, 2, 3, 4, 5, 6, 8⟩, 8, 0⟩ : FlashTask).previous.s2 +
        (⟨⟨8, 2, 3, 4, 5, 6, 8⟩, 8, 0⟩ : FlashTask).previous.s3 +
        (⟨⟨8, 2, 3, 4, 5, 6, 8⟩, 8, 0⟩ : FlashTask).previous.s4 +
        (⟨⟨8, 2, 3, 4, 5, 6, 8⟩, 8, 0⟩ : FlashTask).previous.s5 +
        (⟨⟨8, 2, 3, 4, 5, 6, 8⟩, 8, 0⟩ : FlashTask).previous.s6) / 3 :=
  rate_uses_all_six_deltas 0 ⟨⟨0, 1, 2, 3, 4, 5, 6⟩, 8, 0⟩ _ _ (by decide)

/-! ### C2 — zero image size -/

/-- C2, counterexample: for a task with `finished = 0` and
`image_length = 0` the code computes `raw_value as f64 / 0.0`, which is
NaN or an infinity (modelled `none`), not the rational `0`.  The claim
that the fraction is defined and equals `0.0` fails. -/
theorem zero_image_fraction_counterexample :
    taskFraction 0 ⟨⟨0, 0, 0, 0, 0, 0, 0⟩, 5, 0⟩ = none ∧
    (none : Option ℚ) ≠ some 0 := by
  constructor
  · decide
  · decide

/-- C2, amended: for every task whose total image size is 0 and whose
finished flag is not set, the code divides by zero unguarded, so the
displayed fraction is NOT a defined number (NaN when the raw value is 0,
an infinity otherwise); no guard treats it as `0.0`. -/
theorem zero_image_fraction_undefined (t : FlashTask) (h : t.finished ≠ 1) :
    taskFraction 0 t = none := by
  simp [taskFraction, h]

/-- C2, witness: the amended theorem evaluated on a concrete task. -/
theorem zero_image_fraction_undefined_witness :
    taskFraction 0 ⟨⟨0, 0, 0, 0, 0, 0, 0⟩, 7, 0⟩ = none :=
  zero_image_fraction_undefined ⟨⟨0, 0, 0, 0, 0, 0, 0⟩, 7, 0⟩ (by decide)

/-! ### C5 — finished tasks display fraction 1.0 -/

/-- C5: for every poll and every task whose finished flag is set (the
`finished` atomic holds 1), the fraction handed to `bar.set_fraction` is
exactly `1.0`, regardless of the task's raw progress value and of the
image length. -/
theorem finished_task_fraction_one (imageLength : Nat) (t : FlashTask)
    (h : t.finished = 1) : taskFraction imageLength t = some 1 := by
  simp [taskFraction, h]

/-- C5, witness: a finished task with an arbitrary raw counter and a zero
image length still displays exactly `1.0`. -/
theorem finished_task_fraction_one_witness :
    taskFraction 0 ⟨⟨9, 9, 9, 9, 9, 9, 9⟩, 123456, 1⟩ = some 1 :=
  finished_task_fraction_one 0 ⟨⟨9, 9, 9, 9, 9, 9, 9⟩, 123456, 1⟩ rfl

/-! ### C7 — ring update -/

/-- C7: on every poll, under the no-underflow precondition, the 7-slot
record update shifts the six delta slots left by one, inserts the current
raw value minus the slot-0 baseline into the last slot, and stores the
current raw value into slot 0 as the new baseline. -/
theorem ring_update_shifts_left (r : SampleRing) (raw : Nat) (h : r.s0 ≤ raw) :
    ∃ r', ringUpdate r raw = some r' ∧
      deltas r' = (deltas r).drop 1 ++ [raw - r.s0] ∧ r'.s0 = raw := by
  refine ⟨⟨raw, r.s2, r.s3, r.s4, r.s5, r.s6, raw - r.s0⟩, ?_, ?_, rfl⟩
  · simp [ringUpdate, usizeSub, h]
  · simp [deltas]

/-- C7, witness: the ring update evaluated on a concrete ring. -/
theorem ring_update_shifts_left_witness :
    ∃ r', ringUpdate ⟨10, 1, 2, 3, 4, 5, 6⟩ 25 = some r' ∧
      deltas r' = (deltas ⟨10, 1, 2, 3, 4, 5, 6⟩).drop 1 ++ [25 - 10] ∧
      r'.s0 = 25 :=
  ring_update_shifts_left ⟨10, 1, 2, 3, 4, 5, 6⟩ 25 (by decide)

/-! ### C9 — no underflow under the monotonicity precondition -/

/-- C9: when the raw progress value read at a poll is at least the slot-0
baseline stored at the previous poll, the `raw_value - prev_values[0]`
subtraction does not underflow, so the whole per-task update is total
(no panic). -/
theorem ring_update_no_underflow (imageLength : Nat) (t : FlashTask)
    (h : t.previous.s0 ≤ t.progress) :
    (taskPoll imageLength t).isSome = true := by
  simp [taskPoll, ringUpdate, usizeSub, h]

/-- C9, witness: the totality theorem evaluated on a concrete task. -/
theorem ring_update_no_underflow_witness :
    (taskPoll 512 ⟨⟨3, 0, 0, 0, 0, 0, 0⟩, 10, 0⟩).isSome = true :=
  ring_update_no_underflow 512 ⟨⟨3, 0, 0, 0, 0, 0, 0⟩, 10, 0⟩ (by decide)

/-! ### C3 — which buffer states reach the per-task loop -/

theorem completeOrContinue_loopEntered (inp : PollInput)
    (results : List (TaskView × FlashTask)) :
    (completeOrContinue inp results).loopEntered = true := by
  unfold completeOrContinue
  split_ifs <;> rfl

theorem pollBody_loop_iff (inp : PollInput) (out : PollOutput)
    (h : pollBody inp = some out) :
    out.loopEntered = true ↔ inp.tasks ≠ [] := by
  unfold pollBody at h
  by_cases hn : inp.tasks.length = 0
  · rw [if_pos hn] at h
    injection h with h
    subst h
    simp [earlyReturn, List.length_eq_zero.mp hn]
  · rw [if_neg hn] at h
    have hne : inp.tasks ≠ [] := fun hnil => hn (by simp [hnil])
    cases hm : pollTasks inp.imageLength (inp.tasks.take inp.bars) <;> rw [hm] at h
    · simp at h
    · rw [Option.map_some'] at h
      injection h with h
      subst h
      simp [completeOrContinue_loopEntered, hne]

/-- C3, counterexample: a poll in buffer state `0b0010` (image `Ready`)
with a non-empty task list reaches the per-task loop, because the
`0b0010` match arm has no `return` and falls through: the claim that only
`0b1000` enters the loop, and that `Ready` polls return without it, is
false. -/
theorem ready_phase_enters_loop :
    ((pollStep ⟨2, 0, [⟨⟨0, 0, 0, 0, 0, 0, 0⟩, 50, 0⟩], 1, ["/dev/sdb"],
        [Except.ok ()]⟩).map fun out => out.loopEntered) = some true := by
  decide

/-- C3, amended: the per-task loop is reached exactly when the buffer
state is `0b0010` or `0b1000` and the task list is non-empty; for the
three values `Empty` (0b0000), `Loading` (0b0001) and `Invalidated`
(0b0100) the poll returns reschedule without entering the loop.  (`Ready`
= 0b0010 only stays out of the loop while no tasks survive from a
session, the normal situation on the image-selection screen.) -/
theorem loop_entry_characterization (inp : PollInput) (out : PollOutput)
    (h : pollStep inp = some out) :
    (out.loopEntered = true ↔
      ((inp.bufState = 2 ∨ inp.bufState = 8) ∧ inp.tasks ≠ [])) ∧
    ((inp.bufState = 0 ∨ inp.bufState = 1 ∨ inp.bufState = 4) →
      out.cont = true ∧ out.loopEntered = false) := by
  unfold pollStep at h
  split_ifs at h with h0 h1 h2 h4 h8
  · injection h with h
    subst h
    simp [earlyReturn, h0]
  · injection h with h
    subst h
    simp [earlyReturn, h1]
  · refine ⟨by rw [pollBody_loop_iff inp out h]; simp [h2], ?_⟩
    intro hcase
    rcases hcase with hc | hc | hc <;> omega
  · injection h with h
    subst h
    simp [earlyReturn, h4]
  · refine ⟨by rw [pollBody_loop_iff inp out h]; simp [h8], ?_⟩
    intro hcase
    rcases hcase with hc | hc | hc <;> omega

/-- C3, witness: the amended characterization evaluated on a concrete
poll (flashing state, no tasks yet). -/
theorem loop_entry_characterization_witness :
    ((earlyReturn ⟨8, 10, [], 0, [], []⟩).loopEntered = true ↔
      (((8 : Nat) = 2 ∨ (8 : Nat) = 8) ∧ ([] : List FlashTask) ≠ [])) ∧
    (((8 : Nat) = 0 ∨ (8 : Nat) = 1 ∨ (8 : Nat) = 4) →
      (earlyReturn ⟨8, 10, [], 0, [], []⟩).cont = true ∧
        (earlyReturn ⟨8, 10, [], 0, [], []⟩).loopEntered = false) :=
  loop_entry_characterization ⟨8, 10, [], 0, [], []⟩
    (earlyReturn ⟨8, 10, [], 0, [], []⟩) (by decide)

/-! ### C4 — what the completion poll drains -/

theorem pollBody_drain (inp : PollInput) (out : PollOutput)
    (h : pollBody inp = some out) (hc : out.cont = false) :
    out.handles = [] ∧ out.tasks.length = inp.tasks.length := by
  unfold pollBody at h
  by_cases hn : inp.tasks.length = 0
  · rw [if_pos hn] at h
    injection h with h
    subst h
    simp [earlyReturn] at hc
  · rw [if_neg hn] at h
    cases hm : pollTasks inp.imageLength (inp.tasks.take inp.bars) <;> rw [hm] at h
    · simp at h
    · rw [Option.map_some'] at h
      injection h with h
      subst h
      unfold completeOrContinue at hc ⊢
      by_cases hall : ((inp.tasks.take inp.bars).all fun t => t.finished = 1) = true
      · rw [if_pos hall]
        refine ⟨rfl, ?_⟩
        simp only [List.length_append, List.length_map]
        rw [pollTasks_length _ _ _ hm, ← List.length_append,
          List.take_append_drop]
      · rw [if_neg hall] at hc
        simp at hc

/-- C4, counterexample: a completion poll (one finished task, one handle)
empties `task_handles` but leaves `tasks` non-empty — the two collections
are NOT drained together and `tasks` is not left empty: only the handle
vector is drained (`task_handles.deref_mut().drain(..)`, line 401), while
`tasks` is never cleared. -/
theorem tasks_not_drained_counterexample :
    ((pollStep ⟨8, 100, [⟨⟨0, 0, 0, 0, 0, 0, 0⟩, 100, 1⟩], 1, ["/dev/sdb"],
        [Except.ok ()]⟩).map fun out => (out.handles.isEmpty, out.tasks.isEmpty)) =
      some (true, false) := by
  decide

/-- C4, amended: session start pushes one task and one handle per target,
so the two lengths stay equal while the session runs, and the completion
poll (the poll that returns `Continue(false)`) drains the handle list to
empty exactly once; the task list, however, is NOT drained — its length
is unchanged. -/
theorem drain_only_handles (st : SessionState) (os : List (Except DiskError Unit))
    (inp : PollInput) (out : PollOutput)
    (hlen : st.tasks.length = st.handles.length)
    (hp : pollStep inp = some out) (hc : out.cont = false) :
    (sessionStart st os).tasks.length = (sessionStart st os).handles.length ∧
    out.handles = [] ∧ out.tasks.length = inp.tasks.length := by
  refine ⟨by simp [sessionStart, hlen], ?_⟩
  unfold pollStep at hp
  split_ifs at hp with h0 h1 h2 h4 h8
  · injection hp with hp
    subst hp
    simp [earlyReturn] at hc
  · injection hp with hp
    subst hp
    simp [earlyReturn] at hc
  · exact pollBody_drain inp out hp hc
  · injection hp with hp
    subst hp
    simp [earlyReturn] at hc
  · exact pollBody_drain inp out hp hc

/-- C4, witness: the amended theorem evaluated on a concrete one-target
session and its completion poll. -/
theorem drain_only_handles_witness :
    (sessionStart ⟨[], [], 0⟩ [.ok ()]).tasks.length =
      (sessionStart ⟨[], [], 0⟩ [.ok ()]).handles.length ∧
    ({ cont := false, loopEntered := true, views := [⟨some 1, 33, "0 KiB/s"⟩],
       tasks := [⟨⟨100, 0, 0, 0, 0, 0, 100⟩, 100, 1⟩], devices := ["/dev/sdb"],
       handles := [], errored := [],
       summary := some "1 devices successfully flashed" } : PollOutput).handles = [] ∧
    ({ cont := false, loopEntered := true, views := [⟨some 1, 33, "0 KiB/s"⟩],
       tasks := [⟨⟨100, 0, 0, 0, 0, 0, 100⟩, 100, 1⟩], devices := ["/dev/sdb"],
       handles := [], errored := [],
       summary := some "1 devices successfully flashed" } : PollOutput).tasks.length =
      (⟨8, 100, [⟨⟨0, 0, 0, 0, 0, 0, 0⟩, 100, 1⟩], 1, ["/dev/sdb"],
        [Except.ok ()]⟩ : PollInput).tasks.length :=
  drain_only_handles ⟨[], [], 0⟩ [.ok ()]
    ⟨8, 100, [⟨⟨0, 0, 0, 0, 0, 0, 0⟩, 100, 1⟩], 1, ["/dev/sdb"], [Except.ok ()]⟩
    { cont := false, loopEntered := true, views := [⟨some 1, 33, "0 KiB/s"⟩],
      tasks := [⟨⟨100, 0, 0, 0, 0, 0, 100⟩, 100, 1⟩], devices := ["/dev/sdb"],
      handles := [], errored := [],
      summary := some "1 devices successfully flashed" }
    rfl (by decide) rfl

/-! ### C6 — error collection contents and order -/

/-- C6: at drain time the error collection is exactly the in-order
filtering of the positional (device, handle-outcome) pairing: one
`(deviceId, reason)` pair per failed writer, nothing for successes, in
task submission order.  The hypothesis says the device list covers every
handle, which holds in the program because one handle is pushed per
enumerated device. -/
theorem drain_errors_in_task_order (hs : List (Except DiskError Unit))
    (ds : List String) (h : hs.length ≤ ds.length) :
    drainErrors hs ds = (ds.zip hs).filterMap fun p =>
      match p.2 with
      | .error why => some (p.1, why)
      | .ok _ => none :=
  drainErrors_eq_filterMap hs ds h

/-- C6, witness: the spec's worked example — targets `[A, B, C]`, B fails
with a short write — yields exactly `[(B, ShortWrite)]`. -/
theorem drain_errors_in_task_order_witness :
    drainErrors exampleHandles exampleDevices =
      (exampleDevices.zip exampleHandles).filterMap fun p =>
        match p.2 with
        | .error why => some (p.1, why)
        | .ok _ => none :=
  drain_errors_in_task_order exampleHandles exampleDevices (by decide)

/-! ### C8 — summary text -/

/-- C8: on the completion poll, with `n` the number of tasks (equal to
the number of handles, as one of each is pushed per target) and the
device list covering every handle, the summary reads
`"N devices successfully flashed"` when no writer failed and
`"K of N devices successfully flashed"` with `K = N - failures`
otherwise. -/
theorem summary_text_counts (hs : List (Except DiskError Unit)) (ds : List String)
    (n : Nat) (hn : n = hs.length) (hd : hs.length ≤ ds.length) :
    (hs.countP isErr = 0 →
      summaryText n (drainErrors hs ds) =
        toString n ++ " devices successfully flashed") ∧
    (hs.countP isErr ≠ 0 →
      summaryText n (drainErrors hs ds) =
        toString (n - hs.countP isErr) ++ " of " ++ toString n ++
          " devices successfully flashed") := by
  constructor
  · intro h0
    have hnil : drainErrors hs ds = [] := (drainErrors_eq_nil_iff hs ds hd).mpr h0
    simp [summaryText, hnil]
  · intro hne
    have hnil : ¬drainErrors hs ds = [] := fun hcon =>
      hne ((drainErrors_eq_nil_iff hs ds hd).mp hcon)
    have hlen' : (drainErrors hs ds).length = hs.countP isErr :=
      drainErrors_length hs ds hd
    simp [summaryText, List.isEmpty_iff, hnil, hlen']

/-- C8, witness: the spec's scenario — 3 tasks, task 2 fails — produces
`"2 of 3 devices successfully flashed"` (and the no-failure branch holds
vacuously). -/
theorem summary_text_counts_witness :
    (exampleHandles.countP isErr = 0 →
      summaryText 3 (drainErrors exampleHandles exampleDevices) =
        toString 3 ++ " devices successfully flashed") ∧
    (exampleHandles.countP isErr ≠ 0 →
      summaryText 3 (drainErrors exampleHandles exampleDevices) =
        toString (3 - exampleHandles.countP isErr) ++ " of " ++ toString 3 ++
          " devices successfully flashed") :=
  summary_text_counts exampleHandles exampleDevices 3 (by decide) (by decide)

/-! ### C10 — handles beyond the device list -/

/-- C10: when the device list is shorter than the handle list, the drain
loop's `if let Some(...) = device_iter.next()` guard skips every handle
beyond the device list's length — those handles are dropped without being
joined, their outcomes are never read, so a failure among them is neither
recorded in the error collection nor reflected in the summary: both equal
what the first `|devices|` handles alone produce. -/
theorem extra_handles_never_recorded (hs : List (Except DiskError Unit))
    (ds : List String) (n : Nat) (h : ds.length < hs.length) :
    drainErrors hs ds = drainErrors (hs.take ds.length) ds ∧
    summaryText n (drainErrors hs ds) =
      summaryText n (drainErrors (hs.take ds.length) ds) := by
  refine ⟨drainErrors_take hs ds, ?_⟩
  rw [drainErrors_take hs ds]

/-- C10, witness: two handles, one device; the second handle's failure is
dropped. -/
theorem extra_handles_never_recorded_witness :
    drainErrors [Except.ok (), Except.error DiskError.shortWrite] ["A"] =
      drainErrors
        ([Except.ok (), Except.error DiskError.shortWrite].take
          (["A"] : List String).length) ["A"] ∧
    summaryText 2 (drainErrors [Except.ok (), Except.error DiskError.shortWrite] ["A"]) =
      summaryText 2
        (drainErrors
          ([Except.ok (), Except.error DiskError.shortWrite].take
            (["A"] : List String).length) ["A"]) :=
  extra_handles_never_recorded [Except.ok (), Except.error DiskError.shortWrite]
    ["A"] 2 (by decide)

end Popsicle
